import Mathlib

/-!
Consent gate of `js/gdpr-consent.js`.

A shallow embedding of the object `AdvantageAI.consent`: the browser state the
program reads and writes (localStorage, `window.dataLayer`, `window.gtmLoaded`,
`config.gtmId`, the document, pending timers, the click listeners, the clock)
is one record, and every method is a function on that record.

Conventions of the embedding.
* The document is a loaded HTML document: it has a body and it holds at least
  one script element (the one that carries this program), so the DOM calls of
  `loadGTM` and `addGTMNoscript` find their reference nodes.
* localStorage is available; `getItem`, `setItem`, `removeItem` do not throw.
* `new Date()` reads a clock that never runs backwards. The increments between
  successive readings are an input (`ticks`).
* Time values are integers of milliseconds, of magnitude at most 8.64e15 as
  `Date` clips them, so a double holds each of them exactly.
* A double is given by its exact rational value. The subtraction and the
  division of `isConsentRecent` round to the nearest double, ties to even
  (`roundToDouble`); overflow and subnormals cannot occur for time values and
  are not modelled.
* A click reaches every listener `setupEventListeners` has registered, one per
  call of `init`.
* The method `debugInfo`, which only writes to the console, is left out.
-/

namespace AdvantageAI

/-! ## Date built-ins -/

/-- Decimal digit `n % 10` as a character. -/
def digitChar (n : Nat) : Char :=
  ['0', '1', '2', '3', '4', '5', '6', '7', '8', '9'].getD (n % 10) '0'

/-- The last `w` decimal digits of `n`, most significant first. -/
def padDigits : Nat → Nat → List Char
  | 0, _ => []
  | w + 1, n => padDigits w (n / 10) ++ [digitChar n]

/-- Civil date `(year, month, day)` of the day number `z` counted from
1970-01-01 in the proleptic Gregorian calendar. -/
def civilFromDays (z0 : Nat) : Nat × Nat × Nat :=
  let z := z0 + 719468
  let era := z / 146097
  let doe := z % 146097
  let yoe := (doe + doe / 36524 - doe / 1460 - doe / 146096) / 365
  let y := yoe + era * 400
  let doy := doe - (365 * yoe + yoe / 4 - yoe / 100)
  let mp := (5 * doy + 2) / 153
  let d := doy - (153 * mp + 2) / 5 + 1
  let m := if mp < 10 then mp + 3 else mp - 9
  (if m ≤ 2 then y + 1 else y, m, d)

/-- Day number, counted from 1970-01-01, of a civil date. -/
def daysFromCivil (y0 m d : Nat) : Int :=
  let y : Int := if m ≤ 2 then (y0 : Int) - 1 else y0
  let era : Int := y / 400
  let yoe : Int := y % 400
  let doy : Nat := (153 * (if m > 2 then m - 3 else m + 9) + 2) / 5 + d - 1
  let doe : Int := yoe * 365 + yoe / 4 - yoe / 100 + doy
  era * 146097 + doe - 719468

/-- The value of `Date.prototype.toISOString` for the time value `t`
(milliseconds since the epoch): `YYYY-MM-DDTHH:mm:ss.sssZ`, with the expanded
six-digit year after year 9999. -/
def toISOString (t : Nat) : String :=
  let ms := t % 1000
  let s := t / 1000 % 60
  let mi := t / 60000 % 60
  let h := t / 3600000 % 24
  let (y, m, d) := civilFromDays (t / 86400000)
  let year := if y ≤ 9999 then padDigits 4 y else '+' :: padDigits 6 y
  String.mk (year ++ '-' :: padDigits 2 m ++ '-' :: padDigits 2 d ++ 'T' :: padDigits 2 h
    ++ ':' :: padDigits 2 mi ++ ':' :: padDigits 2 s ++ '.' :: padDigits 3 ms ++ ['Z'])

/-- Numeric value of a list of decimal digits, `none` when a character is not a digit. -/
def digitsValue : List Char → Option Nat
  | [] => some 0
  | cs => cs.foldl (fun acc c =>
      match acc with
      | some n => if c.isDigit then some (n * 10 + (c.toNat - 48)) else none
      | none => none) (some 0)

/-- Number of days of month `m` in year `y`. -/
def daysInMonth (y m : Nat) : Nat :=
  if m = 2 then (if (y % 4 = 0 ∧ y % 100 ≠ 0) ∨ y % 400 = 0 then 29 else 28)
  else if m = 4 ∨ m = 6 ∨ m = 9 ∨ m = 11 then 30 else 31

/-- A date parser for the one format `toISOString` writes with a four-digit
year, `YYYY-MM-DDTHH:mm:ss.sssZ`, on which it gives the time value that
`new Date(string)` gives; every other string is rejected, also where the
built-in accepts it. It stands in for `new Date(string)` in the closed examples
only: the general statements about `isConsentRecent` hold for every parser. -/
def isoParse (str : String) : Option Int :=
  match str.data with
  | [y1, y2, y3, y4, '-', m1, m2, '-', d1, d2, 'T', h1, h2, ':', n1, n2, ':', s1, s2, '.',
      f1, f2, f3, 'Z'] =>
    match digitsValue [y1, y2, y3, y4], digitsValue [m1, m2], digitsValue [d1, d2],
        digitsValue [h1, h2], digitsValue [n1, n2], digitsValue [s1, s2],
        digitsValue [f1, f2, f3] with
    | some y, some m, some d, some h, some mi, some s, some ms =>
      if 1 ≤ m ∧ m ≤ 12 ∧ 1 ≤ d ∧ d ≤ daysInMonth y m ∧ h < 24 ∧ mi < 60 ∧ s < 60 then
        some (daysFromCivil y m d * 86400000 + ((h * 3600000 + mi * 60000 + s * 1000 + ms : Nat) : Int))
      else none
    | _, _, _, _, _, _, _ => none
  | _ => none

/-! ## Double arithmetic -/

/-- Nearest integer to `m`, a tie going to the even one. -/
def roundHalfEven (m : ℚ) : ℤ :=
  let f := ⌊m⌋
  if m - f < 1 / 2 then f
  else if 1 / 2 < m - f then f + 1
  else if f % 2 = 0 then f else f + 1

/-- The double nearest to the real `x`, a tie going to the even significand:
`x` is scaled by a power of two into `[2^52, 2^53)`, rounded to an integer and
scaled back. This is the rounding of every arithmetic operation on doubles. -/
def roundToDouble (x : ℚ) : ℚ :=
  if x = 0 then 0
  else
    let e : ℤ := Int.log 2 |x| - 52
    let n := roundHalfEven (|x| / 2 ^ e)
    if 0 < x then n * 2 ^ e else -(n * 2 ^ e)

/-- The rationals a double can hold: an integer below `2^53` in magnitude times a power of two. -/
def IsDouble (y : ℚ) : Prop :=
  ∃ k j : ℤ, |k| < 2 ^ 53 ∧ y = k * 2 ^ j

/-- A JavaScript number: a finite double given by its exact value, `NaN`, or an infinity. -/
inductive JSNumber where
  | finite (value : ℚ)
  | nan
  | posInfinity
  | negInfinity

/-- Comparison `x <= y` of a finite number `x` with a number `y`. -/
def leNumber (x : ℚ) : JSNumber → Bool
  | .finite y => decide (x ≤ y)
  | .nan => false
  | .posInfinity => true
  | .negInfinity => false

/-! ## Browser state -/

/-- The values `config.gtmId` takes: `undefined`, `null` or a string. -/
inductive JSVal where
  | undefined
  | null
  | str (s : String)
  deriving DecidableEq, Repr

/-- JavaScript truthiness: only a non-empty string is truthy here. -/
def JSVal.truthy : JSVal → Bool
  | .str s => s != ""
  | _ => false

/-- String conversion, as done by `'...' + i`. -/
def JSVal.toStr : JSVal → String
  | .undefined => "undefined"
  | .null => "null"
  | .str s => s

/-- A primitive stored under a key of a dataLayer record. -/
inductive Prim where
  | str (s : String)
  | num (n : Nat)
  deriving DecidableEq, Repr

/-- An object literal pushed onto `window.dataLayer`: its keys with their values, in order. -/
abbrev Record := List (String × Prim)

/-- A DOM element: a node identity, the tag, the properties the program sets, the children. -/
inductive Element where
  | mk (uid : Nat) (tag : String) (props : List (String × String)) (children : List Element)

/-- Node identity of an element. -/
def Element.uid : Element → Nat
  | .mk u _ _ _ => u

/-- Tag name of an element. -/
def Element.tag : Element → String
  | .mk _ t _ _ => t

/-- Properties of an element, latest assignment first. -/
def Element.props : Element → List (String × String)
  | .mk _ _ p _ => p

/-- Children of an element. -/
def Element.children : Element → List Element
  | .mk _ _ _ c => c

/-- Assignment `e.k = v`. -/
def Element.set (e : Element) (k v : String) : Element :=
  .mk e.uid e.tag ((k, v) :: e.props) e.children

/-- Call `e.appendChild(c)`. -/
def Element.appendChild (e c : Element) : Element :=
  .mk e.uid e.tag e.props (e.children ++ [c])

/-- Value of the property `k` of an element. -/
def Element.prop (e : Element) (k : String) : Option String :=
  (e.props.find? (fun p => p.1 == k)).map Prod.snd

/-- The three style properties of the banner the program writes. -/
structure Style where
  display : String
  transform : String
  opacity : String
  deriving DecidableEq, Repr

/-- The callbacks the program hands to `setTimeout`. -/
inductive TimerAction where
  | showBanner
  | settleBanner
  | concealBanner
  | removeConfirmation (uid : Nat)
  deriving DecidableEq, Repr

/-- A pending `setTimeout`: its delay in milliseconds and its callback. -/
structure Timer where
  delay : Nat
  action : TimerAction
  deriving DecidableEq, Repr

/-- Everything `AdvantageAI.consent` reads or writes. -/
structure State where
  /-- Contents of localStorage, as key and value pairs with distinct keys. -/
  storage : List (String × String)
  /-- Contents of `window.dataLayer`: `none` when undefined, else the array. -/
  dataLayer : Option (List Record)
  /-- Flag `window.gtmLoaded`. -/
  gtmLoaded : Bool
  /-- Field `config.gtmId`. -/
  gtmId : JSVal
  /-- First script element of the document, `getElementsByTagName('script')[0]`. -/
  firstScript : Element
  /-- The script elements after the first one, in document order. -/
  laterScripts : List Element
  /-- Child nodes of `document.body` other than scripts. -/
  body : List Element
  /-- Style of the element `#cookie-banner`, `none` when there is no such element. -/
  banner : Option Style
  /-- Pending timers, oldest first. -/
  timers : List Timer
  /-- Number of click listeners this program has registered on the document. -/
  listeners : Nat
  /-- Messages shown with `alert`. -/
  alerts : List String
  /-- Lines written with `console.log`. -/
  console : List String
  /-- Identity given to the next created node. -/
  nextId : Nat
  /-- Latest clock reading, in milliseconds since the epoch. -/
  time : Nat
  /-- Clock increments before each of the coming readings. -/
  ticks : List Nat

/-- Field `config.cookieName`. -/
def cookieName : String := "analytics-consent"

/-- Field `config.cookieDateName`. -/
def cookieDateName : String := "consent-date"

/-- Call `localStorage.getItem(k)`. -/
def getItem : List (String × String) → String → Option String
  | [], _ => none
  | (k', v) :: rest, k => if k' = k then some v else getItem rest k

/-- Call `localStorage.removeItem(k)`. -/
def removeItem (st : List (String × String)) (k : String) : List (String × String) :=
  st.filter (fun p => p.1 ≠ k)

/-- Call `localStorage.setItem(k, v)`. -/
def setItem (st : List (String × String)) (k v : String) : List (String × String) :=
  (k, v) :: removeItem st k

/-- Expression `new Date()`: the clock advances by the next increment and is read. -/
def newDate (s : State) : Nat × State :=
  let t := s.time + s.ticks.headD 0
  (t, { s with time := t, ticks := s.ticks.tail })

/-- Call `document.createElement(tag)`. -/
def createElement (s : State) (tag : String) : Element × State :=
  (.mk s.nextId tag [] [], { s with nextId := s.nextId + 1 })

/-- Statement `window.dataLayer = window.dataLayer || []`. -/
def ensureDataLayer (s : State) : State :=
  { s with dataLayer := some (s.dataLayer.getD []) }

/-- Call `window.dataLayer.push(r)` on an existing array. -/
def pushRecord (s : State) (r : Record) : State :=
  { s with dataLayer := s.dataLayer.map (fun d => d ++ [r]) }

/-- Call `setTimeout(action, delay)`. -/
def setTimeout (s : State) (action : TimerAction) (delay : Nat) : State :=
  { s with timers := s.timers ++ [⟨delay, action⟩] }

/-! ## The methods of `AdvantageAI.consent` -/

/-- Method `hasConsent`. -/
def hasConsent (s : State) : Bool :=
  getItem s.storage cookieName == some "granted"

/-- Method `showBanner`. -/
def showBanner (s : State) : State :=
  match s.banner with
  | some b =>
    let s := { s with banner := some { b with display := "block" } }
    setTimeout s .settleBanner 100
  | none => s

/-- Method `hideBanner`. -/
def hideBanner (s : State) : State :=
  match s.banner with
  | some b =>
    let s := { s with banner := some { b with transform := "translateY(100%)", opacity := "0" } }
    setTimeout s .concealBanner 300
  | none => s

/-- Method `showConsentConfirmation`. -/
def showConsentConfirmation (s : State) : State :=
  let c := createElement s "div"
  let confirmation := c.1.set "innerHTML" "âœ… Analytics enabled. Thank you!"
  let confirmation := confirmation.set "style.cssText" "position: fixed; bottom: 20px; right: 20px; background: #28a745; color: white; padding: 15px 20px; border-radius: 5px; z-index: 10000; font-size: 14px;"
  let s := { c.2 with body := c.2.body ++ [confirmation] }
  setTimeout s (.removeConfirmation confirmation.uid) 3000

/-- Method `addGTMNoscript`. -/
def addGTMNoscript (s : State) : State :=
  let n := createElement s "noscript"
  let i := createElement n.2 "iframe"
  let iframe := i.1.set "src" ("https://www.googletagmanager.com/ns.html?id=" ++ s.gtmId.toStr)
  let iframe := iframe.set "height" "0"
  let iframe := iframe.set "width" "0"
  let iframe := iframe.set "style.display" "none"
  let iframe := iframe.set "style.visibility" "hidden"
  let noscript := n.1.appendChild iframe
  { i.2 with body := noscript :: i.2.body }

/-- Method `loadGTM`. -/
def loadGTM (s : State) : State :=
  if !s.gtmId.truthy || s.gtmLoaded then s
  else
    let s := ensureDataLayer s
    let d := newDate s
    let s := pushRecord d.2 [("gtm.start", .num d.1), ("event", .str "gtm.js")]
    let f := s.firstScript
    let c := createElement s "script"
    let dl := if "dataLayer" ≠ "dataLayer" then "&l=" ++ "dataLayer" else ""
    let j := c.1.set "async" "true"
    let j := j.set "src" ("https://www.googletagmanager.com/gtm.js?id=" ++ s.gtmId.toStr ++ dl)
    let s := { c.2 with firstScript := j, laterScripts := f :: c.2.laterScripts }
    let s := addGTMNoscript s
    let s := { s with gtmLoaded := true }
    { s with console := s.console ++ ["GTM loaded with consent"] }

/-- Method `grantConsent`. -/
def grantConsent (s : State) : State :=
  let s := { s with storage := setItem s.storage cookieName "granted" }
  let d := newDate s
  let s := { d.2 with storage := setItem d.2.storage cookieDateName (toISOString d.1) }
  let s := ensureDataLayer s
  let d := newDate s
  let s := pushRecord d.2
    [("event", .str "consent_granted"), ("consent_timestamp", .str (toISOString d.1))]
  let s := if !s.gtmLoaded then loadGTM s else s
  let s := hideBanner s
  showConsentConfirmation s

/-- Method `revokeConsent`. -/
def revokeConsent (s : State) : State :=
  let s := { s with storage := removeItem s.storage cookieName }
  let s := { s with storage := removeItem s.storage cookieDateName }
  let s :=
    if s.dataLayer.isSome then
      let d := newDate s
      pushRecord d.2
        [("event", .str "consent_revoked"), ("revoke_timestamp", .str (toISOString d.1))]
    else s
  { s with alerts := s.alerts ++
      ["Analytics consent revoked. Please refresh the page for changes to take full effect."] }

/-- The click listener registered by `setupEventListeners`, run on a target
with the class list `classList`. -/
def handleClick (classList : List String) (s : State) : State :=
  if classList.contains "consent-accept" then grantConsent s
  else if classList.contains "consent-decline" then hideBanner s
  else s

/-- Method `setupEventListeners`: one more click listener on the document. -/
def setupEventListeners (s : State) : State :=
  { s with listeners := s.listeners + 1 }

/-- Method `checkInitialConsent`. -/
def checkInitialConsent (s : State) : State :=
  if hasConsent s then loadGTM s
  else setTimeout s .showBanner 1000

/-- Method `init`. -/
def init (gtmContainerId : JSVal) (s : State) : State :=
  let s := { s with gtmId := gtmContainerId }
  let s := setupEventListeners s
  checkInitialConsent s

/-- Method `isConsentRecent`, with `days = none` for an omitted argument. The
parser `parse` is the one of `new Date(string)`: it gives the time value, and
`none` stands for an invalid date, whose time value `NaN` makes the comparison
false. -/
def isConsentRecent (parse : String → Option Int) (days : Option JSNumber) (s : State) :
    Bool × State :=
  let days := days.getD (.finite 365)
  match getItem s.storage cookieDateName with
  | none => (false, s)
  | some consentDate =>
    if consentDate = "" then (false, s)
    else
      let d := newDate s
      match parse consentDate with
      | none => (false, d.2)
      | some stored =>
        let daysSinceConsent : ℚ :=
          roundToDouble (roundToDouble (((d.1 : Int) - stored : Int) : ℚ) / (1000 * 60 * 60 * 24))
        (leNumber daysSinceConsent days, d.2)

/-- A click on an element with the class list `classList`: the document runs
every registered listener. -/
def click (classList : List String) (s : State) : State :=
  (handleClick classList)^[s.listeners] s

/-- The callback of the `i`-th pending timer runs and the timer is gone. -/
def fireTimer (i : Nat) (s : State) : State :=
  match s.timers.get? i with
  | none => s
  | some t =>
    let s := { s with timers := s.timers.eraseIdx i }
    match t.action with
    | .showBanner => showBanner s
    | .settleBanner =>
      { s with banner := s.banner.map (fun b => { b with transform := "translateY(0)", opacity := "1" }) }
    | .concealBanner =>
      { s with banner := s.banner.map (fun b => { b with display := "none" }) }
    | .removeConfirmation uid =>
      { s with body := s.body.eraseP (fun e => e.uid == uid) }

/-! ## Operations, runs and observations -/

/-- The operations of the page on the consent object: its public methods, a
click anywhere in the document, and the firing of a pending timer. -/
inductive Op where
  | init (gtmContainerId : JSVal)
  | grantConsent
  | revokeConsent
  | loadGTM
  | showBanner
  | hideBanner
  | isConsentRecent (parse : String → Option Int) (days : Option JSNumber)
  | click (classList : List String)
  | fireTimer (i : Nat)

/-- Effect of one operation on the state. -/
def Op.apply : Op → State → State
  | .init v, s => AdvantageAI.init v s
  | .grantConsent, s => AdvantageAI.grantConsent s
  | .revokeConsent, s => AdvantageAI.revokeConsent s
  | .loadGTM, s => AdvantageAI.loadGTM s
  | .showBanner, s => AdvantageAI.showBanner s
  | .hideBanner, s => AdvantageAI.hideBanner s
  | .isConsentRecent parse days, s => (AdvantageAI.isConsentRecent parse days s).2
  | .click cl, s => AdvantageAI.click cl s
  | .fireTimer i, s => AdvantageAI.fireTimer i s

/-- Effect of a sequence of operations, first one first. -/
def run (ops : List Op) (s : State) : State :=
  ops.foldl (fun st o => o.apply st) s

/-- Operations other than `revokeConsent` and a direct call of `loadGTM`. -/
def Op.gated : Op → Bool
  | .revokeConsent => false
  | .loadGTM => false
  | _ => true

/-- The tag-load triggers: a direct `loadGTM`, a `grantConsent`, a click on an
element of class `consent-accept`. -/
def Op.isTrigger : Op → Bool
  | .loadGTM => true
  | .grantConsent => true
  | .click cl => cl.contains "consent-accept"
  | _ => false

/-- The script elements of the document, in document order. -/
def scripts (s : State) : List Element :=
  s.firstScript :: s.laterScripts

/-- Whether `e` is the loader script of the container `id`. -/
def isLoader (id : String) (e : Element) : Bool :=
  e.tag == "script" && e.prop "src" == some ("https://www.googletagmanager.com/gtm.js?id=" ++ id)

/-- Whether `e` is the noscript fallback of the container `id`. -/
def isFallback (id : String) (e : Element) : Bool :=
  e.tag == "noscript" && e.children.any (fun c =>
    c.tag == "iframe" && c.prop "src" == some ("https://www.googletagmanager.com/ns.html?id=" ++ id))

/-- Number of script elements in the document. -/
def scriptCount (s : State) : Nat :=
  (scripts s).length

/-- Number of loader scripts of the container `id` in the document. -/
def loaderCount (id : String) (s : State) : Nat :=
  (scripts s).countP (isLoader id)

/-- Number of noscript elements among the children of the body. -/
def noscriptCount (s : State) : Nat :=
  s.body.countP (fun e => e.tag == "noscript")

/-- Number of noscript fallbacks of the container `id` among the children of the body. -/
def fallbackCount (id : String) (s : State) : Nat :=
  s.body.countP (isFallback id)

/-- Whether a record is a `gtm.js` record. -/
def isGtmJs (r : Record) : Bool :=
  r.lookup "event" == some (.str "gtm.js")

/-- Number of `gtm.js` records on the dataLayer, zero when it is undefined. -/
def gtmRecordCount (s : State) : Nat :=
  (s.dataLayer.getD []).countP isGtmJs

/-- The invariant of the consent record: the date key is present exactly when consent is held. -/
def DateIffConsent (s : State) : Prop :=
  (getItem s.storage cookieDateName).isSome = true ↔ hasConsent s = true

instance (s : State) : Decidable (DateIffConsent s) := by
  unfold DateIffConsent
  infer_instance

/-- Shape of a record as the specification words it: exactly the keys `event`
and `timestamp`, both with a string value. -/
def hasClaimedShape (r : Record) : Bool :=
  r.length == 2 &&
  (match r.lookup "event" with
    | some (.str _) => true
    | _ => false) &&
  (match r.lookup "timestamp" with
    | some (.str _) => true
    | _ => false)

/-- Elapsed milliseconds in whole days of 86,400,000 ms, as the specification words it. -/
def wholeDays (elapsedMs : Int) : Int :=
  elapsedMs / 86400000

/-- What the idempotence statements count for a container `id`: script
elements, loader scripts, noscript elements, noscript fallbacks, `gtm.js` records. -/
def tally (id : String) (s : State) : Nat × Nat × Nat × Nat × Nat :=
  (scriptCount s, loaderCount id s, noscriptCount s, fallbackCount id s, gtmRecordCount s)

/-- One more of everything `tally` counts. -/
def tallySucc (t : Nat × Nat × Nat × Nat × Nat) : Nat × Nat × Nat × Nat × Nat :=
  (t.1 + 1, t.2.1 + 1, t.2.2.1 + 1, t.2.2.2.1 + 1, t.2.2.2.2 + 1)

/-- The tag of container `id` has been loaded exactly once since `s0`. -/
def LoadedOnce (id : String) (s0 s : State) : Prop :=
  s.gtmLoaded = true ∧ tally id s = tallySucc (tally id s0)

/-- The tag of container `id` is configured, a listener is registered, and nothing
has been loaded since `s0`. -/
def Pending (id : String) (s0 s : State) : Prop :=
  s.gtmLoaded = false ∧ s.gtmId = .str id ∧ 1 ≤ s.listeners ∧ tally id s = tally id s0

/-- Relation between the states before and after a step that either ends with
consent stored or leaves storage, the loaded flag and the script elements alone. -/
def StepOK (s s' : State) : Prop :=
  hasConsent s' = true ∨
    (s'.storage = s.storage ∧ s'.gtmLoaded = s.gtmLoaded ∧ scripts s' = scripts s)

/-- Every field of the state other than the banner style and the pending
timers is the same in `s` and `s'`. -/
def BannerFrame (s s' : State) : Prop :=
  s'.storage = s.storage ∧ s'.dataLayer = s.dataLayer ∧ s'.gtmLoaded = s.gtmLoaded ∧
  s'.gtmId = s.gtmId ∧ s'.firstScript = s.firstScript ∧ s'.laterScripts = s.laterScripts ∧
  s'.body = s.body ∧ s'.listeners = s.listeners ∧ s'.alerts = s.alerts ∧
  s'.console = s.console ∧ s'.nextId = s.nextId ∧ s'.time = s.time ∧ s'.ticks = s.ticks

/-- A first visit: empty storage, no dataLayer, nothing loaded, a banner in
the page, the clock at 2023-11-14T22:13:20.000Z advancing 5 ms per reading. -/
def freshPage : State where
  storage := []
  dataLayer := none
  gtmLoaded := false
  gtmId := .null
  firstScript := .mk 0 "script" [("src", "/js/gdpr-consent.js")] []
  laterScripts := []
  body := []
  banner := some ⟨"none", "translateY(100%)", "0"⟩
  timers := []
  listeners := 0
  alerts := []
  console := []
  nextId := 1
  time := 1700000000000
  ticks := [5, 5, 5, 5, 5, 5, 5, 5]

/-- A later visit of a user whose consent of 2023-11-14T22:13:20.000Z is stored. -/
def returningPage : State :=
  { freshPage with
    storage := [("analytics-consent", "granted"), ("consent-date", "2023-11-14T22:13:20.000Z")] }

/-- The page of the returning user read 30 days and 1 ms after the stored grant. -/
def lateCheck : State :=
  { returningPage with time := 1700000000000 + 30 * 86400000 + 1, ticks := [] }

/-- A first visit on which consent is granted (stored instant 1700000000005),
read again when the clock shows `elapsed` ms more than the stored instant. -/
def afterGrant (elapsed : Nat) : State :=
  { grantConsent freshPage with time := 1700000000005 + elapsed, ticks := [] }

/-! ## Storage lemmas -/

theorem getItem_removeItem_self (st : List (String × String)) (k : String) :
    getItem (removeItem st k) k = none := by
  induction st with
  | nil => rfl
  | cons p rest ih =>
    obtain ⟨k', v⟩ := p
    by_cases h : k' = k
    · simpa [removeItem, List.filter, h] using ih
    · simpa [removeItem, List.filter, h, getItem] using ih

theorem getItem_removeItem_of_ne (st : List (String × String)) (k k' : String) (h : k ≠ k') :
    getItem (removeItem st k) k' = getItem st k' := by
  induction st with
  | nil => rfl
  | cons p rest ih =>
    obtain ⟨a, v⟩ := p
    by_cases ha : a = k
    · subst ha
      simpa [removeItem, List.filter, getItem, h] using ih
    · by_cases hb : a = k'
      · subst hb
        simp [removeItem, List.filter, getItem, ha]
      · simpa [removeItem, List.filter, getItem, ha, hb] using ih

theorem getItem_setItem_self (st : List (String × String)) (k v : String) :
    getItem (setItem st k v) k = some v := by
  simp [setItem, getItem]

theorem getItem_setItem_of_ne (st : List (String × String)) (k k' v : String) (h : k ≠ k') :
    getItem (setItem st k v) k' = getItem st k' := by
  simp [setItem, getItem, h, getItem_removeItem_of_ne]

theorem cookieName_ne_cookieDateName : cookieName ≠ cookieDateName := by decide

/-! ## Frame lemmas of the methods -/

@[simp]
theorem hideBanner_storage (s : State) : (hideBanner s).storage = s.storage := by
  unfold hideBanner; split <;> simp [setTimeout]

@[simp]
theorem hideBanner_gtmLoaded (s : State) : (hideBanner s).gtmLoaded = s.gtmLoaded := by
  unfold hideBanner; split <;> simp [setTimeout]

@[simp]
theorem hideBanner_dataLayer (s : State) : (hideBanner s).dataLayer = s.dataLayer := by
  unfold hideBanner; split <;> simp [setTimeout]

@[simp]
theorem hideBanner_gtmId (s : State) : (hideBanner s).gtmId = s.gtmId := by
  unfold hideBanner; split <;> simp [setTimeout]

@[simp]
theorem hideBanner_firstScript (s : State) : (hideBanner s).firstScript = s.firstScript := by
  unfold hideBanner; split <;> simp [setTimeout]

@[simp]
theorem hideBanner_laterScripts (s : State) :
    (hideBanner s).laterScripts = s.laterScripts := by
  unfold hideBanner; split <;> simp [setTimeout]

@[simp]
theorem hideBanner_body (s : State) : (hideBanner s).body = s.body := by
  unfold hideBanner; split <;> simp [setTimeout]

@[simp]
theorem hideBanner_listeners (s : State) : (hideBanner s).listeners = s.listeners := by
  unfold hideBanner; split <;> simp [setTimeout]

@[simp]
theorem hideBanner_time (s : State) : (hideBanner s).time = s.time := by
  unfold hideBanner; split <;> simp [setTimeout]

@[simp]
theorem showBanner_storage (s : State) : (showBanner s).storage = s.storage := by
  unfold showBanner; split <;> simp [setTimeout]

@[simp]
theorem showBanner_gtmLoaded (s : State) : (showBanner s).gtmLoaded = s.gtmLoaded := by
  unfold showBanner; split <;> simp [setTimeout]

@[simp]
theorem loadGTM_storage (s : State) : (loadGTM s).storage = s.storage := by
  unfold loadGTM; split <;> simp [ensureDataLayer, pushRecord, newDate, createElement, addGTMNoscript]

@[simp]
theorem loadGTM_gtmId (s : State) : (loadGTM s).gtmId = s.gtmId := by
  unfold loadGTM; split <;> simp [ensureDataLayer, pushRecord, newDate, createElement, addGTMNoscript]

@[simp]
theorem loadGTM_listeners (s : State) : (loadGTM s).listeners = s.listeners := by
  unfold loadGTM; split <;> simp [ensureDataLayer, pushRecord, newDate, createElement, addGTMNoscript]

theorem loadGTM_of_loaded (s : State) (h : s.gtmLoaded = true) : loadGTM s = s := by
  simp [loadGTM, h]

theorem loadGTM_of_falsy (s : State) (h : s.gtmId.truthy = false) : loadGTM s = s := by
  simp [loadGTM, h]

theorem grantConsent_storage (s : State) :
    (grantConsent s).storage =
      setItem (setItem s.storage cookieName "granted") cookieDateName
        (toISOString (s.time + s.ticks.headD 0)) := by
  simp only [grantConsent, showConsentConfirmation, setTimeout, createElement, hideBanner_storage]
  split <;> simp [ensureDataLayer, pushRecord, newDate]

@[simp]
theorem grantConsent_gtmId (s : State) : (grantConsent s).gtmId = s.gtmId := by
  simp only [grantConsent, showConsentConfirmation, setTimeout, createElement, hideBanner_gtmId]
  split <;> simp [ensureDataLayer, pushRecord, newDate]

@[simp]
theorem grantConsent_listeners (s : State) :
    (grantConsent s).listeners = s.listeners := by
  simp only [grantConsent, showConsentConfirmation, setTimeout, createElement,
    hideBanner_listeners]
  split <;> simp [ensureDataLayer, pushRecord, newDate]

theorem hasConsent_grantConsent (s : State) : hasConsent (grantConsent s) = true := by
  simp [hasConsent, grantConsent_storage,
    getItem_setItem_of_ne _ _ _ _ cookieName_ne_cookieDateName.symm, getItem_setItem_self]

/-! ## What a load inserts -/

theorem loadGTM_load (s : State) (hid : s.gtmId.truthy = true) (hl : s.gtmLoaded = false) :
    (loadGTM s).gtmLoaded = true ∧
    scripts (loadGTM s) =
      Element.mk s.nextId "script"
        [("src", "https://www.googletagmanager.com/gtm.js?id=" ++ s.gtmId.toStr),
          ("async", "true")] [] :: scripts s ∧
    (loadGTM s).body =
      Element.mk (s.nextId + 1) "noscript" []
        [Element.mk (s.nextId + 2) "iframe"
          [("style.visibility", "hidden"), ("style.display", "none"), ("width", "0"),
            ("height", "0"),
            ("src", "https://www.googletagmanager.com/ns.html?id=" ++ s.gtmId.toStr)] []]
        :: s.body ∧
    (loadGTM s).dataLayer =
      some (s.dataLayer.getD [] ++
        [[("gtm.start", .num (s.time + s.ticks.headD 0)), ("event", .str "gtm.js")]]) ∧
    (loadGTM s).timers = s.timers := by
  simp [loadGTM, hid, hl, scripts, ensureDataLayer, pushRecord, newDate, createElement,
    addGTMNoscript, Element.set, Element.appendChild, Element.uid, Element.tag, Element.props,
    Element.children]

theorem grantConsent_of_loaded (s : State) (hl : s.gtmLoaded = true) :
    (grantConsent s).gtmLoaded = true ∧
    scripts (grantConsent s) = scripts s ∧
    (∃ c : Element, c.tag = "div" ∧ (grantConsent s).body = s.body ++ [c]) ∧
    (grantConsent s).dataLayer =
      some (s.dataLayer.getD [] ++
        [[("event", .str "consent_granted"),
          ("consent_timestamp",
            .str (toISOString (s.time + s.ticks.headD 0 + s.ticks.tail.headD 0)))]]) := by
  simp [grantConsent, showConsentConfirmation, setTimeout, hl, scripts, ensureDataLayer,
    pushRecord, newDate, createElement, Element.set, Element.uid, Element.tag, Element.props,
    Element.children]

theorem grantConsent_of_pending (s : State) (hid : s.gtmId.truthy = true)
    (hl : s.gtmLoaded = false) :
    (grantConsent s).gtmLoaded = true ∧
    (∃ j : Element, isLoader s.gtmId.toStr j = true ∧ scripts (grantConsent s) = j :: scripts s) ∧
    (∃ n c : Element, isFallback s.gtmId.toStr n = true ∧ n.tag = "noscript" ∧ c.tag = "div" ∧
      (grantConsent s).body = n :: s.body ++ [c]) ∧
    (grantConsent s).dataLayer =
      some (s.dataLayer.getD [] ++
        [[("event", .str "consent_granted"),
          ("consent_timestamp",
            .str (toISOString (s.time + s.ticks.headD 0 + s.ticks.tail.headD 0)))],
         [("gtm.start",
            .num (s.time + s.ticks.headD 0 + s.ticks.tail.headD 0 + s.ticks.tail.tail.headD 0)),
          ("event", .str "gtm.js")]]) := by
  simp [grantConsent, showConsentConfirmation, setTimeout, hl, hid, scripts, ensureDataLayer,
    pushRecord, newDate, createElement, Element.set, Element.uid, Element.tag, Element.props,
    Element.children, loadGTM, addGTMNoscript, Element.appendChild, isLoader, isFallback,
    Element.prop]

/-! ## Idempotence of the load -/

theorem tally_grantConsent_of_loaded (id : String) (s : State) (hl : s.gtmLoaded = true) :
    tally id (grantConsent s) = tally id s := by
  obtain ⟨-, hs, ⟨c, hc, hb⟩, hd⟩ := grantConsent_of_loaded s hl
  simp [tally, scriptCount, loaderCount, noscriptCount, fallbackCount, gtmRecordCount, hs, hb,
    hd, hc, isFallback, isGtmJs, List.lookup]

theorem tally_grantConsent_of_pending (id : String) (s : State) (hid : id ≠ "")
    (hg : s.gtmId = .str id) (hl : s.gtmLoaded = false) :
    tally id (grantConsent s) = tallySucc (tally id s) := by
  have ht : s.gtmId.truthy = true := by simp [hg, JSVal.truthy, hid]
  obtain ⟨-, ⟨j, hj, hs⟩, ⟨n, c, hn, hnt, hc, hb⟩, hd⟩ := grantConsent_of_pending s ht hl
  simp only [hg, JSVal.toStr] at hj hn
  have hcf : isFallback id c = false := by simp [isFallback, hc]
  simp [tally, tallySucc, scriptCount, loaderCount, noscriptCount, fallbackCount,
    gtmRecordCount, hs, hb, hd, hc, hj, hn, hnt, hcf, isGtmJs, List.lookup,
    List.countP_cons, List.countP_append]

theorem tally_loadGTM_of_pending (id : String) (s : State) (hid : id ≠ "")
    (hg : s.gtmId = .str id) (hl : s.gtmLoaded = false) :
    tally id (loadGTM s) = tallySucc (tally id s) := by
  have ht : s.gtmId.truthy = true := by simp [hg, JSVal.truthy, hid]
  obtain ⟨-, hs, hb, hd, -⟩ := loadGTM_load s ht hl
  simp [tally, tallySucc, scriptCount, loaderCount, noscriptCount, fallbackCount,
    gtmRecordCount, hs, hb, hd, hg, JSVal.toStr, isLoader, isFallback, isGtmJs, List.lookup,
    List.countP_cons, List.countP_append, Element.tag, Element.prop, Element.props,
    Element.children]

theorem loadedOnce_grantConsent (id : String) (s0 s : State) (h : LoadedOnce id s0 s) :
    LoadedOnce id s0 (grantConsent s) :=
  ⟨(grantConsent_of_loaded s h.1).1, by rw [tally_grantConsent_of_loaded id s h.1]; exact h.2⟩

theorem loadedOnce_iterate_grantConsent (id : String) (s0 : State) (n : Nat) :
    ∀ s : State, LoadedOnce id s0 s → LoadedOnce id s0 (grantConsent^[n] s) := by
  induction n with
  | zero => intro s h; exact h
  | succ n ih =>
    intro s h
    rw [Function.iterate_succ_apply]
    exact ih _ (loadedOnce_grantConsent id s0 s h)

theorem pending_grantConsent (id : String) (s0 s : State) (hid : id ≠ "")
    (h : Pending id s0 s) : LoadedOnce id s0 (grantConsent s) := by
  obtain ⟨hl, hg, -, ht⟩ := h
  have htr : s.gtmId.truthy = true := by simp [hg, JSVal.truthy, hid]
  exact ⟨(grantConsent_of_pending s htr hl).1, by
    rw [tally_grantConsent_of_pending id s hid hg hl, ht]⟩

theorem handleClick_accept (cl : List String) (h : cl.contains "consent-accept" = true) :
    handleClick cl = grantConsent := by
  funext s
  simp only [handleClick, h, if_true]

theorem loadedOnce_trigger (id : String) (s0 s : State) (o : Op) (ho : o.isTrigger = true)
    (h : LoadedOnce id s0 s) : LoadedOnce id s0 (o.apply s) := by
  cases o with
  | loadGTM => simpa [Op.apply, loadGTM_of_loaded s h.1] using h
  | grantConsent => exact loadedOnce_grantConsent id s0 s h
  | click cl =>
    have hc : cl.contains "consent-accept" = true := by simpa [Op.isTrigger] using ho
    simp only [Op.apply, click, handleClick_accept cl hc]
    exact loadedOnce_iterate_grantConsent id s0 _ s h
  | _ => simp [Op.isTrigger] at ho

theorem pending_trigger (id : String) (s0 s : State) (o : Op) (hid : id ≠ "")
    (ho : o.isTrigger = true) (h : Pending id s0 s) : LoadedOnce id s0 (o.apply s) := by
  cases o with
  | loadGTM =>
    obtain ⟨hl, hg, -, ht⟩ := h
    have htr : s.gtmId.truthy = true := by simp [hg, JSVal.truthy, hid]
    exact ⟨(loadGTM_load s htr hl).1, by
      show tally id (loadGTM s) = _
      rw [tally_loadGTM_of_pending id s hid hg hl, ht]⟩
  | grantConsent => exact pending_grantConsent id s0 s hid h
  | click cl =>
    have hc : cl.contains "consent-accept" = true := by simpa [Op.isTrigger] using ho
    obtain ⟨n, hn⟩ : ∃ n, s.listeners = n + 1 := ⟨s.listeners - 1, by have := h.2.2.1; omega⟩
    simp only [Op.apply, click, handleClick_accept cl hc, hn, Function.iterate_succ_apply]
    exact loadedOnce_iterate_grantConsent id s0 n _ (pending_grantConsent id s0 s hid h)
  | _ => simp [Op.isTrigger] at ho

theorem loadedOnce_run (id : String) (s0 : State) (ts : List Op) :
    ∀ s : State, (∀ o ∈ ts, o.isTrigger = true) → LoadedOnce id s0 s →
      LoadedOnce id s0 (run ts s) := by
  induction ts with
  | nil => intro s _ h; exact h
  | cons o rest ih =>
    intro s ht h
    have : run (o :: rest) s = run rest (o.apply s) := rfl
    rw [this]
    exact ih _ (fun o' ho' => ht o' (List.mem_cons_of_mem _ ho'))
      (loadedOnce_trigger id s0 s o (ht o (List.mem_cons_self _ _)) h)

theorem init_of_consent (id : String) (s0 : State) (hid : id ≠ "") (hl : s0.gtmLoaded = false)
    (hc : hasConsent s0 = true) : LoadedOnce id s0 (init (.str id) s0) := by
  have hc' : hasConsent { s0 with gtmId := .str id, listeners := s0.listeners + 1 } = true := hc
  have ht : tally id { s0 with gtmId := .str id, listeners := s0.listeners + 1 } = tally id s0 :=
    rfl
  have htr : (JSVal.str id).truthy = true := by simp [JSVal.truthy, hid]
  simp only [init, setupEventListeners, checkInitialConsent, hc', if_true]
  exact ⟨(loadGTM_load { s0 with gtmId := .str id, listeners := s0.listeners + 1 } htr hl).1, by
    rw [tally_loadGTM_of_pending id { s0 with gtmId := .str id, listeners := s0.listeners + 1 }
      hid rfl hl, ht]⟩

theorem init_of_no_consent (id : String) (s0 : State) (hl : s0.gtmLoaded = false)
    (hc : hasConsent s0 = false) : Pending id s0 (init (.str id) s0) := by
  have hc' : hasConsent { s0 with gtmId := .str id, listeners := s0.listeners + 1 } = false := hc
  simp only [init, setupEventListeners, checkInitialConsent, hc']
  exact ⟨hl, rfl, Nat.le_add_left 1 _, rfl⟩

/-- C2. After `init(id)` with a non-empty container id in a state where the tag
is not loaded, every non-empty sequence of tag-load triggers (direct `loadGTM`
calls, `grantConsent` calls, clicks on a `consent-accept` element, in any mix)
ends with exactly one more script element, which is the loader of `id`,
exactly one more noscript element, which is the fallback of `id`, and exactly
one more `gtm.js` record on the dataLayer than the starting state had. -/
theorem load_exactly_once (s0 : State) (id : String) (ts : List Op)
    (hl : s0.gtmLoaded = false) (hid : id ≠ "") (hne : ts ≠ [])
    (ht : ∀ o ∈ ts, o.isTrigger = true) :
    scriptCount (run ts (init (.str id) s0)) = scriptCount s0 + 1 ∧
    loaderCount id (run ts (init (.str id) s0)) = loaderCount id s0 + 1 ∧
    noscriptCount (run ts (init (.str id) s0)) = noscriptCount s0 + 1 ∧
    fallbackCount id (run ts (init (.str id) s0)) = fallbackCount id s0 + 1 ∧
    gtmRecordCount (run ts (init (.str id) s0)) = gtmRecordCount s0 + 1 ∧
    (run ts (init (.str id) s0)).gtmLoaded = true := by
  have key : LoadedOnce id s0 (run ts (init (.str id) s0)) := by
    cases hc : hasConsent s0 with
    | true => exact loadedOnce_run id s0 ts _ ht (init_of_consent id s0 hid hl hc)
    | false =>
      cases ts with
      | nil => exact absurd rfl hne
      | cons o rest =>
        have : run (o :: rest) (init (.str id) s0) = run rest (o.apply (init (.str id) s0)) := rfl
        rw [this]
        exact loadedOnce_run id s0 rest _ (fun o' ho' => ht o' (List.mem_cons_of_mem _ ho'))
          (pending_trigger id s0 _ o hid (ht o (List.mem_cons_self _ _))
            (init_of_no_consent id s0 hl hc))
  obtain ⟨hg, hta⟩ := key
  simp only [tally, tallySucc, Prod.mk.injEq] at hta
  exact ⟨hta.1, hta.2.1, hta.2.2.1, hta.2.2.2.1, hta.2.2.2.2, hg⟩

/-- Witness of C2 on a first visit: `init("GTM-XXXX")`, then an accept click,
a direct `loadGTM` and a `grantConsent`. -/
theorem load_exactly_once_witness :
    scriptCount (run [.click ["btn", "consent-accept"], .loadGTM, .grantConsent]
      (init (.str "GTM-XXXX") freshPage)) = scriptCount freshPage + 1 ∧
    loaderCount "GTM-XXXX" (run [.click ["btn", "consent-accept"], .loadGTM, .grantConsent]
      (init (.str "GTM-XXXX") freshPage)) = loaderCount "GTM-XXXX" freshPage + 1 ∧
    noscriptCount (run [.click ["btn", "consent-accept"], .loadGTM, .grantConsent]
      (init (.str "GTM-XXXX") freshPage)) = noscriptCount freshPage + 1 ∧
    fallbackCount "GTM-XXXX" (run [.click ["btn", "consent-accept"], .loadGTM, .grantConsent]
      (init (.str "GTM-XXXX") freshPage)) = fallbackCount "GTM-XXXX" freshPage + 1 ∧
    gtmRecordCount (run [.click ["btn", "consent-accept"], .loadGTM, .grantConsent]
      (init (.str "GTM-XXXX") freshPage)) = gtmRecordCount freshPage + 1 ∧
    (run [.click ["btn", "consent-accept"], .loadGTM, .grantConsent]
      (init (.str "GTM-XXXX") freshPage)).gtmLoaded = true :=
  load_exactly_once freshPage "GTM-XXXX" [.click ["btn", "consent-accept"], .loadGTM, .grantConsent]
    rfl (by decide) (by simp) (by decide)

/-! ## The gate: loaded only with consent -/

theorem stepOK_refl (s : State) : StepOK s s := Or.inr ⟨rfl, rfl, rfl⟩

theorem stepOK_trans (s s' s'' : State) (h1 : StepOK s s') (h2 : StepOK s' s'') :
    StepOK s s'' := by
  rcases h2 with h2 | ⟨hs, hl, hsc⟩
  · exact Or.inl h2
  · rcases h1 with h1 | ⟨hs1, hl1, hsc1⟩
    · left
      simpa [hasConsent, hs] using h1
    · exact Or.inr ⟨hs.trans hs1, hl.trans hl1, hsc.trans hsc1⟩

theorem stepOK_iterate (f : State → State) (hf : ∀ s, StepOK s (f s)) (n : Nat) :
    ∀ s, StepOK s (f^[n] s) := by
  induction n with
  | zero => intro s; exact stepOK_refl s
  | succ n ih =>
    intro s
    rw [Function.iterate_succ_apply]
    exact stepOK_trans _ _ _ (hf s) (ih (f s))

theorem stepOK_hideBanner (s : State) : StepOK s (hideBanner s) := by
  refine Or.inr ⟨by simp, by simp, by simp [scripts]⟩

theorem stepOK_showBanner (s : State) : StepOK s (showBanner s) := by
  refine Or.inr ⟨by simp, by simp, ?_⟩
  unfold showBanner; split <;> simp [setTimeout, scripts]

theorem stepOK_handleClick (cl : List String) (s : State) : StepOK s (handleClick cl s) := by
  unfold handleClick
  split
  · exact Or.inl (hasConsent_grantConsent s)
  · split
    · exact stepOK_hideBanner s
    · exact stepOK_refl s

theorem stepOK_init (v : JSVal) (s : State) : StepOK s (init v s) := by
  cases hc : hasConsent s with
  | true =>
    left
    have hc' : hasConsent { s with gtmId := v, listeners := s.listeners + 1 } = true := hc
    simp only [init, setupEventListeners, checkInitialConsent, hc', if_true]
    simpa [hasConsent] using hc
  | false =>
    right
    have hc' : hasConsent { s with gtmId := v, listeners := s.listeners + 1 } = false := hc
    simp [init, setupEventListeners, checkInitialConsent, hc', setTimeout, scripts]

theorem stepOK_isConsentRecent (parse : String → Option Int) (days : Option JSNumber)
    (s : State) :
    StepOK s (isConsentRecent parse days s).2 := by
  right
  unfold isConsentRecent
  split
  · exact ⟨rfl, rfl, rfl⟩
  · split
    · exact ⟨rfl, rfl, rfl⟩
    · split <;> simp [newDate, scripts]

theorem stepOK_fireTimer (i : Nat) (s : State) : StepOK s (fireTimer i s) := by
  unfold fireTimer
  split
  · exact stepOK_refl s
  · split
    · exact stepOK_showBanner _
    · exact Or.inr ⟨rfl, rfl, rfl⟩
    · exact Or.inr ⟨rfl, rfl, rfl⟩
    · exact Or.inr ⟨rfl, rfl, rfl⟩

theorem stepOK_gated (o : Op) (ho : o.gated = true) (s : State) : StepOK s (o.apply s) := by
  cases o with
  | init v => exact stepOK_init v s
  | grantConsent => exact Or.inl (hasConsent_grantConsent s)
  | revokeConsent => simp [Op.gated] at ho
  | loadGTM => simp [Op.gated] at ho
  | showBanner => exact stepOK_showBanner s
  | hideBanner => exact stepOK_hideBanner s
  | isConsentRecent parse days => exact stepOK_isConsentRecent parse days s
  | click cl => exact stepOK_iterate (handleClick cl) (stepOK_handleClick cl) _ s
  | fireTimer i => exact stepOK_fireTimer i s

theorem gate_of_stepOK (s s' : State) (h : StepOK s s')
    (hg : s.gtmLoaded = true → hasConsent s = true) :
    s'.gtmLoaded = true → hasConsent s' = true := by
  intro hl
  rcases h with h | ⟨hs, hl', -⟩
  · exact h
  · have := hg (hl'.symm.trans hl)
    simpa [hasConsent, hs] using this

theorem gate_run (ops : List Op) :
    ∀ s : State, (∀ o ∈ ops, o.gated = true) → (s.gtmLoaded = true → hasConsent s = true) →
      (run ops s).gtmLoaded = true → hasConsent (run ops s) = true := by
  induction ops with
  | nil => intro s _ h; exact h
  | cons o rest ih =>
    intro s hg h
    have : run (o :: rest) s = run rest (o.apply s) := rfl
    rw [this]
    exact ih _ (fun o' ho' => hg o' (List.mem_cons_of_mem _ ho'))
      (gate_of_stepOK s _ (stepOK_gated o (hg o (List.mem_cons_self _ _)) s) h)

/-- C1. From any state in which the tag is not loaded, after any sequence of
operations other than `revokeConsent` and a direct `loadGTM` (so `init`, clicks
of any kind, `grantConsent`, banner calls, timers), `gtmLoaded = true` implies
`hasConsent() = true`; and every single step of such a sequence that changes
the script elements or the loaded flag ends with `analytics-consent` equal to
`granted`. -/
theorem tag_loaded_only_with_consent (s0 : State) (ops : List Op)
    (h0 : s0.gtmLoaded = false) (hg : ∀ o ∈ ops, o.gated = true) :
    ((run ops s0).gtmLoaded = true → hasConsent (run ops s0) = true) ∧
    ∀ (pre post : List Op) (o : Op), ops = pre ++ o :: post →
      (scripts (o.apply (run pre s0)) ≠ scripts (run pre s0) ∨
        (o.apply (run pre s0)).gtmLoaded ≠ (run pre s0).gtmLoaded) →
      getItem (o.apply (run pre s0)).storage "analytics-consent" = some "granted" := by
  refine ⟨gate_run ops s0 hg (by simp [h0]), ?_⟩
  intro pre post o hops hch
  have ho : o.gated = true := hg o (by simp [hops])
  rcases stepOK_gated o ho (run pre s0) with h | ⟨-, hl, hs⟩
  · simpa [hasConsent, cookieName] using h
  · rcases hch with hch | hch
    · exact absurd hs hch
    · exact absurd hl hch

/-- Witness of C1: a first visit, `init`, a decline click, an accept click. -/
theorem tag_loaded_only_with_consent_witness :
    ((run [.init (.str "GTM-XXXX"), .click ["consent-decline"], .click ["consent-accept"]]
        freshPage).gtmLoaded = true →
      hasConsent (run [.init (.str "GTM-XXXX"), .click ["consent-decline"],
        .click ["consent-accept"]] freshPage) = true) ∧
    ∀ (pre post : List Op) (o : Op),
      [Op.init (.str "GTM-XXXX"), .click ["consent-decline"], .click ["consent-accept"]] =
        pre ++ o :: post →
      (scripts (o.apply (run pre freshPage)) ≠ scripts (run pre freshPage) ∨
        (o.apply (run pre freshPage)).gtmLoaded ≠ (run pre freshPage).gtmLoaded) →
      getItem (o.apply (run pre freshPage)).storage "analytics-consent" = some "granted" :=
  tag_loaded_only_with_consent freshPage
    [.init (.str "GTM-XXXX"), .click ["consent-decline"], .click ["consent-accept"]] rfl
    (by decide)

/-! ## The single methods -/

/-- C3. `loadGTM` changes nothing when the configured container id is `null`,
`undefined` or the empty string, or when `gtmLoaded` is already true, whatever
the configured id is by then: the whole state (document, dataLayer,
localStorage, the loaded flag and everything else) is the same after the call. -/
theorem loadGTM_noop (s : State)
    (h : s.gtmId = .null ∨ s.gtmId = .undefined ∨ s.gtmId = .str "" ∨ s.gtmLoaded = true) :
    loadGTM s = s := by
  rcases h with h | h | h | h
  · exact loadGTM_of_falsy s (by rw [h]; rfl)
  · exact loadGTM_of_falsy s (by rw [h]; rfl)
  · exact loadGTM_of_falsy s (by rw [h]; rfl)
  · exact loadGTM_of_loaded s h

/-- Witness of C3: on a first visit no container id is configured. -/
theorem loadGTM_noop_witness : loadGTM freshPage = freshPage :=
  loadGTM_noop freshPage (Or.inl rfl)

/-- C4. After `grantConsent()` entered at clock time `s.time`, `hasConsent()` is
true, `analytics-consent` holds exactly `granted`, and `consent-date` holds the
ISO-8601 rendering of the first clock reading of the call, an instant no
earlier than the time of the call. -/
theorem grantConsent_records (s : State) :
    hasConsent (grantConsent s) = true ∧
    getItem (grantConsent s).storage "analytics-consent" = some "granted" ∧
    getItem (grantConsent s).storage "consent-date" =
      some (toISOString (s.time + s.ticks.headD 0)) ∧
    s.time ≤ s.time + s.ticks.headD 0 := by
  refine ⟨hasConsent_grantConsent s, ?_, ?_, Nat.le_add_right _ _⟩
  · simpa [hasConsent, cookieName] using hasConsent_grantConsent s
  · rw [grantConsent_storage]
    exact getItem_setItem_self _ _ _

theorem revokeConsent_storage (s : State) :
    (revokeConsent s).storage = removeItem (removeItem s.storage cookieName) cookieDateName := by
  unfold revokeConsent
  simp only []
  split <;> simp [pushRecord, newDate]

theorem revokeConsent_removes_both (s : State) :
    getItem (revokeConsent s).storage cookieName = none ∧
    getItem (revokeConsent s).storage cookieDateName = none := by
  constructor
  · rw [revokeConsent_storage,
      getItem_removeItem_of_ne _ _ _ cookieName_ne_cookieDateName.symm]
    exact getItem_removeItem_self _ _
  · rw [revokeConsent_storage]
    exact getItem_removeItem_self _ _

/-- C5. After `revokeConsent()`, from any state, `hasConsent()` is false and
both keys `analytics-consent` and `consent-date` are absent from localStorage. -/
theorem revokeConsent_clears (s : State) :
    hasConsent (revokeConsent s) = false ∧
    getItem (revokeConsent s).storage "analytics-consent" = none ∧
    getItem (revokeConsent s).storage "consent-date" = none := by
  obtain ⟨h1, h2⟩ := revokeConsent_removes_both s
  exact ⟨by simp [hasConsent, h1], h1, h2⟩

/-! ## The invariant of the consent record -/

theorem dateIffConsent_of_storage (s s' : State) (hs : s'.storage = s.storage)
    (h : DateIffConsent s) : DateIffConsent s' := by
  simpa [DateIffConsent, hasConsent, hs] using h

theorem dateIffConsent_grantConsent (s : State) : DateIffConsent (grantConsent s) := by
  have h := hasConsent_grantConsent s
  have hd : getItem (grantConsent s).storage cookieDateName =
      some (toISOString (s.time + s.ticks.headD 0)) := by
    rw [grantConsent_storage]
    exact getItem_setItem_self _ _ _
  simp [DateIffConsent, h, hd]

theorem dateIffConsent_revokeConsent (s : State) : DateIffConsent (revokeConsent s) := by
  obtain ⟨h1, h2⟩ := revokeConsent_removes_both s
  simp [DateIffConsent, hasConsent, h1, h2]

theorem dateIffConsent_handleClick (cl : List String) (s : State) (h : DateIffConsent s) :
    DateIffConsent (handleClick cl s) := by
  unfold handleClick
  split
  · exact dateIffConsent_grantConsent s
  · split
    · exact dateIffConsent_of_storage s _ (by simp) h
    · exact h

theorem dateIffConsent_iterate (cl : List String) (n : Nat) :
    ∀ s, DateIffConsent s → DateIffConsent ((handleClick cl)^[n] s) := by
  induction n with
  | zero => intro s h; exact h
  | succ n ih =>
    intro s h
    rw [Function.iterate_succ_apply]
    exact ih _ (dateIffConsent_handleClick cl s h)

theorem isConsentRecent_storage (parse : String → Option Int) (days : Option JSNumber)
    (s : State) :
    (isConsentRecent parse days s).2.storage = s.storage := by
  unfold isConsentRecent
  split
  · rfl
  · split
    · rfl
    · split <;> simp [newDate]

theorem fireTimer_storage (i : Nat) (s : State) : (fireTimer i s).storage = s.storage := by
  unfold fireTimer
  split
  · rfl
  · split <;> simp

theorem init_storage (v : JSVal) (s : State) : (init v s).storage = s.storage := by
  simp only [init, setupEventListeners, checkInitialConsent]
  split <;> simp [setTimeout]

/-- C6. The predicate "the key `consent-date` is present in localStorage if
and only if `hasConsent()` is true" is preserved by every operation: `init`,
`grantConsent`, `revokeConsent`, `loadGTM`, `showBanner`, `hideBanner`,
`isConsentRecent`, a click on any element, and the firing of any timer. -/
theorem dateIffConsent_preserved (o : Op) (s : State) (h : DateIffConsent s) :
    DateIffConsent (o.apply s) := by
  cases o with
  | init v => exact dateIffConsent_of_storage s _ (init_storage v s) h
  | grantConsent => exact dateIffConsent_grantConsent s
  | revokeConsent => exact dateIffConsent_revokeConsent s
  | loadGTM => exact dateIffConsent_of_storage s _ (loadGTM_storage s) h
  | showBanner => exact dateIffConsent_of_storage s _ (showBanner_storage s) h
  | hideBanner => exact dateIffConsent_of_storage s _ (hideBanner_storage s) h
  | isConsentRecent parse days =>
    exact dateIffConsent_of_storage s _ (isConsentRecent_storage parse days s) h
  | click cl => exact dateIffConsent_iterate cl _ s h
  | fireTimer i => exact dateIffConsent_of_storage s _ (fireTimer_storage i s) h

/-- Witness of C6: a revocation on the page of a returning user, where the
predicate holds with both keys stored. -/
theorem dateIffConsent_preserved_witness :
    DateIffConsent returningPage ∧ DateIffConsent (Op.revokeConsent.apply returningPage) :=
  ⟨by decide, dateIffConsent_preserved .revokeConsent returningPage (by decide)⟩

/-! ## Initialisation -/

/-- C8. For a state in which the tag is not loaded and a non-empty container
id, `init(id)` returns with the tag loaded if and only if `hasConsent()` was
true on entry. With consent, the loader script of `id` and the noscript
fallback of `id` are inserted, one `gtm.js` record is pushed and no timer is
scheduled. Without consent, the loaded flag stays false, scripts, body and
dataLayer are untouched and exactly one timer is added: the banner-show timer
of 1000 ms. -/
theorem init_loads_iff_consent (s : State) (id : String) (hl : s.gtmLoaded = false)
    (hid : id ≠ "") :
    ((init (.str id) s).gtmLoaded = true ↔ hasConsent s = true) ∧
    (hasConsent s = true →
      (∃ j, isLoader id j = true ∧ scripts (init (.str id) s) = j :: scripts s) ∧
      (∃ n, isFallback id n = true ∧ (init (.str id) s).body = n :: s.body) ∧
      gtmRecordCount (init (.str id) s) = gtmRecordCount s + 1 ∧
      (init (.str id) s).timers = s.timers) ∧
    (hasConsent s = false →
      (init (.str id) s).gtmLoaded = false ∧
      scripts (init (.str id) s) = scripts s ∧
      (init (.str id) s).body = s.body ∧
      (init (.str id) s).dataLayer = s.dataLayer ∧
      (init (.str id) s).timers = s.timers ++ [⟨1000, .showBanner⟩]) := by
  have htr : (JSVal.str id).truthy = true := by simp [JSVal.truthy, hid]
  cases hc : hasConsent s with
  | true =>
    have hc' : hasConsent { s with gtmId := .str id, listeners := s.listeners + 1 } = true := hc
    obtain ⟨h1, h2, h3, h4, h5⟩ :=
      loadGTM_load { s with gtmId := .str id, listeners := s.listeners + 1 } htr hl
    have hi : init (.str id) s =
        loadGTM { s with gtmId := .str id, listeners := s.listeners + 1 } := by
      simp only [init, setupEventListeners, checkInitialConsent, hc', if_true]
    rw [hi]
    refine ⟨by simp [h1], fun _ => ⟨⟨_, ?_, h2⟩, ⟨_, ?_, h3⟩, ?_, h5⟩, by simp⟩
    · simp [isLoader, Element.tag, Element.prop, Element.props, JSVal.toStr]
    · simp [isFallback, Element.tag, Element.prop, Element.props, Element.children, JSVal.toStr]
    · simp [gtmRecordCount, h4, isGtmJs, List.lookup, List.countP_append]
  | false =>
    have hc' : hasConsent { s with gtmId := .str id, listeners := s.listeners + 1 } = false := hc
    have hi : init (.str id) s =
        setTimeout { s with gtmId := .str id, listeners := s.listeners + 1 } .showBanner 1000 := by
      simp only [init, setupEventListeners, checkInitialConsent, hc']
      rfl
    rw [hi]
    simp [setTimeout, scripts, hl]

/-- Witness of C8 on a first visit. -/
theorem init_loads_iff_consent_witness :
    ((init (.str "GTM-XXXX") freshPage).gtmLoaded = true ↔ hasConsent freshPage = true) ∧
    (hasConsent freshPage = true →
      (∃ j, isLoader "GTM-XXXX" j = true ∧
        scripts (init (.str "GTM-XXXX") freshPage) = j :: scripts freshPage) ∧
      (∃ n, isFallback "GTM-XXXX" n = true ∧
        (init (.str "GTM-XXXX") freshPage).body = n :: freshPage.body) ∧
      gtmRecordCount (init (.str "GTM-XXXX") freshPage) = gtmRecordCount freshPage + 1 ∧
      (init (.str "GTM-XXXX") freshPage).timers = freshPage.timers) ∧
    (hasConsent freshPage = false →
      (init (.str "GTM-XXXX") freshPage).gtmLoaded = false ∧
      scripts (init (.str "GTM-XXXX") freshPage) = scripts freshPage ∧
      (init (.str "GTM-XXXX") freshPage).body = freshPage.body ∧
      (init (.str "GTM-XXXX") freshPage).dataLayer = freshPage.dataLayer ∧
      (init (.str "GTM-XXXX") freshPage).timers = freshPage.timers ++ [⟨1000, .showBanner⟩]) :=
  init_loads_iff_consent freshPage "GTM-XXXX" rfl (by decide)

/-! ## Decline -/

theorem handleClick_decline (cl : List String) (hd : cl.contains "consent-decline" = true)
    (ha : cl.contains "consent-accept" = false) : handleClick cl = hideBanner := by
  funext s
  simp only [handleClick, hd, ha, if_true, Bool.false_eq_true, if_false]

theorem bannerFrame_refl (s : State) : BannerFrame s s :=
  ⟨rfl, rfl, rfl, rfl, rfl, rfl, rfl, rfl, rfl, rfl, rfl, rfl, rfl⟩

theorem bannerFrame_hideBanner (s : State) : BannerFrame s (hideBanner s) := by
  unfold hideBanner
  split
  · exact ⟨rfl, rfl, rfl, rfl, rfl, rfl, rfl, rfl, rfl, rfl, rfl, rfl, rfl⟩
  · exact bannerFrame_refl s

theorem bannerFrame_trans (s s' s'' : State) (h1 : BannerFrame s s') (h2 : BannerFrame s' s'') :
    BannerFrame s s'' := by
  obtain ⟨a1, a2, a3, a4, a5, a6, a7, a8, a9, a10, a11, a12, a13⟩ := h1
  obtain ⟨b1, b2, b3, b4, b5, b6, b7, b8, b9, b10, b11, b12, b13⟩ := h2
  exact ⟨b1.trans a1, b2.trans a2, b3.trans a3, b4.trans a4, b5.trans a5, b6.trans a6,
    b7.trans a7, b8.trans a8, b9.trans a9, b10.trans a10, b11.trans a11, b12.trans a12,
    b13.trans a13⟩

theorem bannerFrame_iterate (n : Nat) : ∀ s, BannerFrame s (hideBanner^[n] s) := by
  induction n with
  | zero => intro s; exact bannerFrame_refl s
  | succ n ih =>
    intro s
    rw [Function.iterate_succ_apply]
    exact bannerFrame_trans _ _ _ (bannerFrame_hideBanner s) (ih _)

theorem hideBanner_of_no_banner (s : State) (h : s.banner = none) : hideBanner s = s := by
  simp [hideBanner, h]

/-- C9. A click on an element that carries the class `consent-decline` and not
`consent-accept` runs `hideBanner` once per registered listener and nothing
else: localStorage, the loaded flag, the dataLayer and every other field but
the banner style and the pending timers are unchanged; with the one listener
of a single `init` the state is that of one `hideBanner` call, and without a
banner element the state is unchanged. -/
theorem decline_click_only_hides (s : State) (cl : List String)
    (hd : cl.contains "consent-decline" = true) (ha : cl.contains "consent-accept" = false) :
    click cl s = hideBanner^[s.listeners] s ∧
    (click cl s).storage = s.storage ∧
    (click cl s).gtmLoaded = s.gtmLoaded ∧
    (click cl s).dataLayer = s.dataLayer ∧
    BannerFrame s (click cl s) ∧
    (s.listeners = 1 → click cl s = hideBanner s) ∧
    (s.banner = none → click cl s = s) := by
  have hc : click cl s = hideBanner^[s.listeners] s := by
    simp only [click, handleClick_decline cl hd ha]
  have hf : BannerFrame s (click cl s) := by
    rw [hc]; exact bannerFrame_iterate _ s
  refine ⟨hc, hf.1, hf.2.2.1, hf.2.1, hf, ?_, ?_⟩
  · intro h1
    rw [hc, h1]
    rfl
  · intro hb
    rw [hc]
    exact Function.iterate_fixed (hideBanner_of_no_banner s hb) _

/-- Witness of C9: a decline click after `init` on the page of a returning user. -/
theorem decline_click_only_hides_witness :
    click ["btn", "consent-decline"] (init (.str "GTM-XXXX") returningPage) =
      hideBanner^[(init (.str "GTM-XXXX") returningPage).listeners]
        (init (.str "GTM-XXXX") returningPage) ∧
    (click ["btn", "consent-decline"] (init (.str "GTM-XXXX") returningPage)).storage =
      (init (.str "GTM-XXXX") returningPage).storage ∧
    (click ["btn", "consent-decline"] (init (.str "GTM-XXXX") returningPage)).gtmLoaded =
      (init (.str "GTM-XXXX") returningPage).gtmLoaded ∧
    (click ["btn", "consent-decline"] (init (.str "GTM-XXXX") returningPage)).dataLayer =
      (init (.str "GTM-XXXX") returningPage).dataLayer ∧
    BannerFrame (init (.str "GTM-XXXX") returningPage)
      (click ["btn", "consent-decline"] (init (.str "GTM-XXXX") returningPage)) ∧
    ((init (.str "GTM-XXXX") returningPage).listeners = 1 →
      click ["btn", "consent-decline"] (init (.str "GTM-XXXX") returningPage) =
        hideBanner (init (.str "GTM-XXXX") returningPage)) ∧
    ((init (.str "GTM-XXXX") returningPage).banner = none →
      click ["btn", "consent-decline"] (init (.str "GTM-XXXX") returningPage) =
        init (.str "GTM-XXXX") returningPage) :=
  decline_click_only_hides (init (.str "GTM-XXXX") returningPage) ["btn", "consent-decline"]
    (by decide) (by decide)

/-! ## Records on the dataLayer -/

/-- C10, as stated, fails: on a first visit initialised with a container id,
`grantConsent` pushes a `consent_granted` record whose second key is
`consent_timestamp` and a `gtm.js` record whose other key is `gtm.start` with
a number; `revokeConsent` then pushes a record whose second key is
`revoke_timestamp`. None has the shape with the keys `event` and `timestamp`. -/
theorem pushed_records_claimed_shape_counterexample :
    (revokeConsent (grantConsent (init (.str "GTM-XXXX") freshPage))).dataLayer =
      some [[("event", .str "consent_granted"),
              ("consent_timestamp", .str "2023-11-14T22:13:20.010Z")],
            [("gtm.start", .num 1700000000015), ("event", .str "gtm.js")],
            [("event", .str "consent_revoked"),
              ("revoke_timestamp", .str "2023-11-14T22:13:20.020Z")]] ∧
    ((revokeConsent (grantConsent (init (.str "GTM-XXXX") freshPage))).dataLayer.getD []).any
      hasClaimedShape = false := by
  decide

/-- C10, amended. The records the three pushing methods append are exactly
these. `loadGTM` appends nothing or the one record with the key `gtm.start`
(a number, the clock reading in ms) and the key `event` = `gtm.js`.
`revokeConsent` appends nothing when the dataLayer is undefined, else the one
record with `event` = `consent_revoked` and `revoke_timestamp` (an ISO-8601
string). `grantConsent` appends the record with `event` = `consent_granted`
and `consent_timestamp` (an ISO-8601 string), followed by the `gtm.js` record
when it loads the tag. Every record has two keys and a string `event`. -/
theorem pushed_records_actual_shape (s : State) :
    ((loadGTM s).dataLayer = s.dataLayer ∨
      (loadGTM s).dataLayer = some (s.dataLayer.getD [] ++
        [[("gtm.start", .num (s.time + s.ticks.headD 0)), ("event", .str "gtm.js")]])) ∧
    ((s.dataLayer = none ∧ (revokeConsent s).dataLayer = none) ∨
      (revokeConsent s).dataLayer = some (s.dataLayer.getD [] ++
        [[("event", .str "consent_revoked"),
          ("revoke_timestamp", .str (toISOString (s.time + s.ticks.headD 0)))]])) ∧
    ((grantConsent s).dataLayer = some (s.dataLayer.getD [] ++
        [[("event", .str "consent_granted"),
          ("consent_timestamp",
            .str (toISOString (s.time + s.ticks.headD 0 + s.ticks.tail.headD 0)))]]) ∨
      (grantConsent s).dataLayer = some (s.dataLayer.getD [] ++
        [[("event", .str "consent_granted"),
          ("consent_timestamp",
            .str (toISOString (s.time + s.ticks.headD 0 + s.ticks.tail.headD 0)))],
         [("gtm.start",
            .num (s.time + s.ticks.headD 0 + s.ticks.tail.headD 0 + s.ticks.tail.tail.headD 0)),
          ("event", .str "gtm.js")]])) := by
  refine ⟨?_, ?_, ?_⟩
  · by_cases h : s.gtmId.truthy = true ∧ s.gtmLoaded = false
    · exact Or.inr (loadGTM_load s h.1 h.2).2.2.2.1
    · left
      have : s.gtmId.truthy = false ∨ s.gtmLoaded = true := by
        by_cases h1 : s.gtmId.truthy = true
        · right
          cases hl : s.gtmLoaded with
          | true => rfl
          | false => exact absurd ⟨h1, hl⟩ h
        · left
          simpa using h1
      rcases this with h1 | h1
      · rw [loadGTM_of_falsy s h1]
      · rw [loadGTM_of_loaded s h1]
  · cases hd : s.dataLayer with
    | none => left; simp [revokeConsent, hd]
    | some d => right; simp [revokeConsent, hd, pushRecord, newDate]
  · cases hl : s.gtmLoaded with
    | true => exact Or.inl (grantConsent_of_loaded s hl).2.2.2
    | false =>
      by_cases ht : s.gtmId.truthy = true
      · exact Or.inr (grantConsent_of_pending s ht hl).2.2.2
      · left
        have ht' : s.gtmId.truthy = false := by simpa using ht
        simp [grantConsent, showConsentConfirmation, setTimeout, hl, ht', ensureDataLayer,
          pushRecord, newDate, createElement, loadGTM]

/-! ## Rounding to a double -/

theorem roundHalfEven_ge (m : ℚ) (k : ℤ) (h : (k : ℚ) ≤ m) : k ≤ roundHalfEven m := by
  have hk : k ≤ ⌊m⌋ := Int.le_floor.mpr h
  unfold roundHalfEven
  simp only
  split_ifs <;> omega

theorem roundHalfEven_le (m : ℚ) (k : ℤ) (h : m ≤ (k : ℚ)) : roundHalfEven m ≤ k := by
  have hf : (⌊m⌋ : ℚ) ≤ m := Int.floor_le m
  have hfk : ⌊m⌋ ≤ k := by exact_mod_cast hf.trans h
  unfold roundHalfEven
  simp only
  by_cases h1 : m - ⌊m⌋ < 1 / 2
  · simp only [h1, if_true]; exact hfk
  · have hlt : (⌊m⌋ : ℚ) < k := by
      have : (1 : ℚ) / 2 ≤ m - ⌊m⌋ := not_lt.mp h1
      linarith
    have hlt' : ⌊m⌋ < k := by exact_mod_cast hlt
    simp only [h1, if_false]
    split_ifs <;> omega

theorem roundToDouble_neg (x : ℚ) : roundToDouble (-x) = -roundToDouble x := by
  unfold roundToDouble
  by_cases h0 : x = 0
  · simp [h0]
  · have h0' : -x ≠ 0 := neg_ne_zero.mpr h0
    simp only [h0, h0', if_false, abs_neg]
    rcases lt_or_gt_of_ne h0 with h | h
    · have h1 : ¬ (0 < x) := not_lt.mpr h.le
      have h2 : 0 < -x := neg_pos.mpr h
      simp [h1, h2]
    · have h1 : 0 < x := h
      have h2 : ¬ (0 < -x) := by simpa using h.le
      simp [h1, h2]

theorem roundToDouble_pos_bounds (x : ℚ) (hx : 0 < x) :
    (2 : ℚ) ^ (52 : ℕ) ≤ x / 2 ^ (Int.log 2 x - 52) ∧
      x / 2 ^ (Int.log 2 x - 52) < (2 : ℚ) ^ (53 : ℕ) := by
  have h2 : (0 : ℚ) < 2 := by norm_num
  have hpos : (0 : ℚ) < 2 ^ (Int.log 2 x - 52) := zpow_pos h2 _
  have hlo : ((2 : ℕ) : ℚ) ^ Int.log 2 x ≤ x := Int.zpow_log_le_self (by norm_num) hx
  have hhi : x < ((2 : ℕ) : ℚ) ^ (Int.log 2 x + 1) := Int.lt_zpow_succ_log_self (by norm_num) x
  simp only [Nat.cast_ofNat] at hlo hhi
  constructor
  · rw [le_div_iff₀ hpos]
    have : (2 : ℚ) ^ (52 : ℕ) * 2 ^ (Int.log 2 x - 52) = 2 ^ Int.log 2 x := by
      rw [← zpow_natCast, ← zpow_add₀ (by norm_num : (2 : ℚ) ≠ 0)]
      congr 1
      push_cast
      ring
    rw [this]
    exact hlo
  · rw [div_lt_iff₀ hpos]
    have : (2 : ℚ) ^ (53 : ℕ) * 2 ^ (Int.log 2 x - 52) = 2 ^ (Int.log 2 x + 1) := by
      rw [← zpow_natCast, ← zpow_add₀ (by norm_num : (2 : ℚ) ≠ 0)]
      congr 1
      push_cast
      ring
    rw [this]
    exact hhi


theorem roundToDouble_of_pos (x : ℚ) (hx : 0 < x) :
    roundToDouble x =
      (roundHalfEven (x / 2 ^ (Int.log 2 x - 52)) : ℚ) * 2 ^ (Int.log 2 x - 52) := by
  unfold roundToDouble
  simp [hx.ne', hx, abs_of_pos hx]

theorem zpow_split (e j : ℤ) (h : e ≤ j) :
    ∃ t : ℕ, (2 : ℚ) ^ j = ((2 ^ t : ℤ) : ℚ) * 2 ^ e := by
  obtain ⟨t, ht⟩ := Int.eq_ofNat_of_zero_le (sub_nonneg.mpr h)
  refine ⟨t, ?_⟩
  have hj : j = (t : ℤ) + e := by omega
  rw [hj, zpow_add₀ (by norm_num : (2 : ℚ) ≠ 0), zpow_natCast]
  push_cast
  rfl

theorem zpow_small (e j : ℤ) (h : j < e) :
    (2 : ℚ) ^ (53 : ℕ) * 2 ^ j ≤ 2 ^ (52 : ℕ) * 2 ^ e := by
  have h1 : (2 : ℚ) ^ j ≤ 2 ^ (e - 1) :=
    zpow_le_zpow_right₀ (by norm_num) (by omega)
  have h2 : (2 : ℚ) ^ (52 : ℕ) * 2 ^ e = 2 ^ (53 : ℕ) * 2 ^ (e - 1) := by
    rw [← zpow_natCast, ← zpow_natCast, ← zpow_add₀ (by norm_num : (2 : ℚ) ≠ 0),
      ← zpow_add₀ (by norm_num : (2 : ℚ) ≠ 0)]
    congr 1
    push_cast
    ring
  rw [h2]
  exact mul_le_mul_of_nonneg_left h1 (by positivity)

theorem le_roundToDouble_of_pos (x y : ℚ) (hx : 0 < x) (hy : IsDouble y) (h : y ≤ x) :
    y ≤ roundToDouble x := by
  obtain ⟨hlo, -⟩ := roundToDouble_pos_bounds x hx
  rw [roundToDouble_of_pos x hx]
  set e := Int.log 2 x - 52 with he
  have hpos : (0 : ℚ) < 2 ^ e := zpow_pos (by norm_num) _
  have hn52 : (2 : ℚ) ^ (52 : ℕ) ≤ (roundHalfEven (x / 2 ^ e) : ℚ) := by
    have := roundHalfEven_ge (x / 2 ^ e) ((2 : ℤ) ^ (52 : ℕ)) (by push_cast; exact hlo)
    exact_mod_cast this
  obtain ⟨k, j, hk, rfl⟩ := hy
  by_cases hk0 : k ≤ 0
  · have h1 : (k : ℚ) * 2 ^ j ≤ 0 :=
      mul_nonpos_of_nonpos_of_nonneg (by exact_mod_cast hk0) (zpow_pos (by norm_num) _).le
    have h2 : (0 : ℚ) ≤ (roundHalfEven (x / 2 ^ e) : ℚ) * 2 ^ e :=
      mul_nonneg (le_trans (by positivity) hn52) hpos.le
    exact h1.trans h2
  · have hkpos : 0 < k := not_le.mp hk0
    have hk53 : (k : ℚ) ≤ 2 ^ (53 : ℕ) := by
      have : k < 2 ^ 53 := (abs_lt.mp hk).2
      exact_mod_cast this.le
    by_cases hje : e ≤ j
    · obtain ⟨t, ht⟩ := zpow_split e j hje
      rw [ht, ← mul_assoc]
      apply mul_le_mul_of_nonneg_right _ hpos.le
      have hK : ((k * 2 ^ t : ℤ) : ℚ) ≤ x / 2 ^ e := by
        rw [le_div_iff₀ hpos]
        push_cast
        rw [ht, ← mul_assoc] at h
        exact_mod_cast h
      have := roundHalfEven_ge (x / 2 ^ e) (k * 2 ^ t) hK
      exact_mod_cast this
    · have hlt : j < e := not_le.mp hje
      calc (k : ℚ) * 2 ^ j ≤ 2 ^ (53 : ℕ) * 2 ^ j :=
            mul_le_mul_of_nonneg_right hk53 (zpow_pos (by norm_num) _).le
        _ ≤ 2 ^ (52 : ℕ) * 2 ^ e := zpow_small e j hlt
        _ ≤ (roundHalfEven (x / 2 ^ e) : ℚ) * 2 ^ e :=
            mul_le_mul_of_nonneg_right hn52 hpos.le

theorem roundToDouble_le_of_pos (x y : ℚ) (hx : 0 < x) (hy : IsDouble y) (h : x ≤ y) :
    roundToDouble x ≤ y := by
  obtain ⟨hlo, -⟩ := roundToDouble_pos_bounds x hx
  rw [roundToDouble_of_pos x hx]
  set e := Int.log 2 x - 52 with he
  have hpos : (0 : ℚ) < 2 ^ e := zpow_pos (by norm_num) _
  obtain ⟨k, j, hk, rfl⟩ := hy
  have hk53 : (k : ℚ) < 2 ^ (53 : ℕ) := by
    have : k < 2 ^ 53 := (abs_lt.mp hk).2
    exact_mod_cast this
  by_cases hje : e ≤ j
  · obtain ⟨t, ht⟩ := zpow_split e j hje
    rw [ht, ← mul_assoc]
    apply mul_le_mul_of_nonneg_right _ hpos.le
    have hK : x / 2 ^ e ≤ ((k * 2 ^ t : ℤ) : ℚ) := by
      rw [div_le_iff₀ hpos]
      push_cast
      rw [ht, ← mul_assoc] at h
      exact_mod_cast h
    have := roundHalfEven_le (x / 2 ^ e) (k * 2 ^ t) hK
    exact_mod_cast this
  · exfalso
    have hlt : j < e := not_le.mp hje
    have h1 : (k : ℚ) * 2 ^ j < 2 ^ (53 : ℕ) * 2 ^ j :=
      mul_lt_mul_of_pos_right hk53 (zpow_pos (by norm_num) _)
    have h2 := zpow_small e j hlt
    have h3 : (2 : ℚ) ^ (52 : ℕ) * 2 ^ e ≤ x := by
      rw [le_div_iff₀ hpos] at hlo
      exact hlo
    linarith

theorem isDouble_neg (y : ℚ) (hy : IsDouble y) : IsDouble (-y) := by
  obtain ⟨k, j, hk, rfl⟩ := hy
  exact ⟨-k, j, by simpa using hk, by push_cast; ring⟩

theorem roundToDouble_zero : roundToDouble 0 = 0 := by
  simp [roundToDouble]

theorem le_roundToDouble (x y : ℚ) (hy : IsDouble y) (h : y ≤ x) : y ≤ roundToDouble x := by
  rcases lt_trichotomy x 0 with hx | hx | hx
  · have h1 := roundToDouble_le_of_pos (-x) (-y) (neg_pos.mpr hx) (isDouble_neg y hy)
      (neg_le_neg h)
    rw [roundToDouble_neg] at h1
    exact neg_le_neg_iff.mp h1
  · subst hx
    rw [roundToDouble_zero]
    exact h
  · exact le_roundToDouble_of_pos x y hx hy h

theorem roundToDouble_le (x y : ℚ) (hy : IsDouble y) (h : x ≤ y) : roundToDouble x ≤ y := by
  rcases lt_trichotomy x 0 with hx | hx | hx
  · have h1 := le_roundToDouble_of_pos (-x) (-y) (neg_pos.mpr hx) (isDouble_neg y hy)
      (neg_le_neg h)
    rw [roundToDouble_neg] at h1
    exact neg_le_neg_iff.mp h1
  · subst hx
    rw [roundToDouble_zero]
    exact h
  · exact roundToDouble_le_of_pos x y hx hy h

theorem roundToDouble_of_isDouble (y : ℚ) (hy : IsDouble y) : roundToDouble y = y :=
  le_antisymm (roundToDouble_le y y hy le_rfl) (le_roundToDouble y y hy le_rfl)

theorem isDouble_intCast (n : ℤ) (h : |n| < 2 ^ 53) : IsDouble (n : ℚ) :=
  ⟨n, 0, h, by simp⟩

/-! ## Age of the consent -/

theorem isConsentRecent_iff (parse : String → Option Int) (days : Option JSNumber) (s : State) :
    (isConsentRecent parse days s).1 = true ↔
      ∃ str stored, getItem s.storage cookieDateName = some str ∧ str ≠ "" ∧
        parse str = some stored ∧
        leNumber
          (roundToDouble
            (roundToDouble ((((s.time + s.ticks.headD 0 : Nat) : Int) - stored : Int) : ℚ) /
              86400000))
          (days.getD (.finite 365)) = true := by
  have h864 : (1000 * 60 * 60 * 24 : ℚ) = 86400000 := by norm_num
  unfold isConsentRecent
  cases hg : getItem s.storage cookieDateName with
  | none => simp
  | some str =>
    by_cases he : str = ""
    · simp [he]
    · cases hp : parse str with
      | none => simp [he, hp]
      | some stored =>
        simp only [he, if_false, hp, newDate, h864, Option.some.injEq, ne_eq]
        constructor
        · intro h
          exact ⟨str, stored, rfl, he, hp, h⟩
        · rintro ⟨str', stored', rfl, -, hp', h⟩
          rw [hp] at hp'
          cases hp'
          exact h

theorem days_le_iff (e d : ℤ) (he : |e| < 2 ^ 53) (hd : |d| < 2 ^ 26) :
    roundToDouble (roundToDouble (e : ℚ) / 86400000) ≤ (d : ℚ) ↔ e ≤ d * 86400000 := by
  rw [roundToDouble_of_isDouble _ (isDouble_intCast e he)]
  have hd' := abs_lt.mp hd
  constructor
  · intro h
    by_contra hlt
    have hlt' : d * 86400000 + 1 ≤ e := by omega
    have hq : (d : ℚ) * 86400000 + 1 ≤ (e : ℚ) := by exact_mod_cast hlt'
    have hy : IsDouble ((d : ℚ) + 1 / 134217728) := by
      refine ⟨d * 134217728 + 1, -27, ?_, ?_⟩
      · rw [abs_lt]
        constructor <;> omega
      · push_cast
        rw [zpow_neg]
        norm_num
        ring
    have hyx : (d : ℚ) + 1 / 134217728 ≤ (e : ℚ) / 86400000 := by
      rw [le_div_iff₀ (by norm_num : (0 : ℚ) < 86400000)]
      linarith
    have := le_roundToDouble _ _ hy hyx
    linarith
  · intro h
    have hq : (e : ℚ) ≤ (d : ℚ) * 86400000 := by exact_mod_cast h
    apply roundToDouble_le _ _ (isDouble_intCast d (by rw [abs_lt]; constructor <;> omega))
    rw [div_le_iff₀ (by norm_num : (0 : ℚ) < 86400000)]
    exact hq

theorem isConsentRecent_int_threshold (parse : String → Option Int) (days : Option JSNumber)
    (s : State) (d : ℤ) (str : String) (stored : Int) (now : Nat)
    (hdays : days.getD (.finite 365) = .finite (d : ℚ))
    (hg : getItem s.storage cookieDateName = some str) (he : str ≠ "")
    (hp : parse str = some stored) (hn : s.time + s.ticks.headD 0 = now)
    (hd : |d| < 2 ^ 26) (hel : |(now : Int) - stored| < 2 ^ 53) :
    (isConsentRecent parse days s).1 = true ↔ (now : Int) - stored ≤ d * 86400000 := by
  subst hn
  rw [isConsentRecent_iff, hdays]
  simp only [hg, Option.some.injEq, leNumber, decide_eq_true_eq]
  constructor
  · rintro ⟨str', stored', rfl, -, hp', h⟩
    rw [hp] at hp'
    cases hp'
    exact (days_le_iff _ d hel hd).mp h
  · intro h
    exact ⟨str, stored, rfl, he, hp, (days_le_iff _ d hel hd).mpr h⟩

/-- C7, amended. `isConsentRecent(days)` returns true exactly when a non-empty
`consent-date` string is stored, the date parser accepts it, and the quotient
of the elapsed time (clock reading minus stored instant, in ms) by 86,400,000,
computed in double arithmetic as a fraction and not cut to whole days, is at
most `days` (365 when omitted). For a whole-number threshold `d` below `2^26`
in magnitude and an elapsed time below `2^53` ms in magnitude this is exactly
`elapsed ≤ d * 86,400,000`. So it is false with nothing stored (threshold 30,
no grant), true one day after a grant with threshold 30, false 400 days after
a grant with threshold 365, and already false 30 days and 1 ms after a grant
with threshold 30. -/
theorem isConsentRecent_exact_days (parse : String → Option Int) (days : Option JSNumber)
    (s : State) :
    ((isConsentRecent parse days s).1 = true ↔
      ∃ str stored, getItem s.storage "consent-date" = some str ∧ str ≠ "" ∧
        parse str = some stored ∧
        leNumber
          (roundToDouble
            (roundToDouble ((((s.time + s.ticks.headD 0 : Nat) : Int) - stored : Int) : ℚ) /
              86400000))
          (days.getD (.finite 365)) = true) ∧
    (∀ (d : ℤ) (str : String) (stored : Int),
      days.getD (.finite 365) = .finite (d : ℚ) →
      getItem s.storage "consent-date" = some str → str ≠ "" → parse str = some stored →
      |d| < 2 ^ 26 → |((s.time + s.ticks.headD 0 : Nat) : Int) - stored| < 2 ^ 53 →
      ((isConsentRecent parse days s).1 = true ↔
        ((s.time + s.ticks.headD 0 : Nat) : Int) - stored ≤ d * 86400000)) ∧
    (isConsentRecent isoParse (some (.finite 30)) freshPage).1 = false ∧
    (isConsentRecent isoParse (some (.finite 30)) (afterGrant 86400000)).1 = true ∧
    (isConsentRecent isoParse (some (.finite 365)) (afterGrant (400 * 86400000))).1 = false ∧
    (isConsentRecent isoParse (some (.finite 30)) (afterGrant (30 * 86400000 + 1))).1 = false := by
  refine ⟨isConsentRecent_iff parse days s, ?_, by decide, ?_, ?_, ?_⟩
  · intro d str stored hdays hg he hp hd hel
    exact isConsentRecent_int_threshold parse days s d str stored _ hdays hg he hp rfl hd hel
  · rw [isConsentRecent_int_threshold isoParse (some (.finite 30)) (afterGrant 86400000) 30
      "2023-11-14T22:13:20.005Z" 1700000000005 (1700000000005 + 86400000)
      (by simp) (by decide) (by decide) (by decide) (by decide) (by norm_num)
      (by norm_num [abs_lt])]
    norm_num
  · rw [Bool.eq_false_iff, Ne,
      isConsentRecent_int_threshold isoParse (some (.finite 365)) (afterGrant (400 * 86400000))
      365 "2023-11-14T22:13:20.005Z" 1700000000005 (1700000000005 + 400 * 86400000)
      (by simp) (by decide) (by decide) (by decide) (by decide) (by norm_num)
      (by norm_num [abs_lt])]
    norm_num
  · rw [Bool.eq_false_iff, Ne,
      isConsentRecent_int_threshold isoParse (some (.finite 30)) (afterGrant (30 * 86400000 + 1))
      30 "2023-11-14T22:13:20.005Z" 1700000000005 (1700000000005 + (30 * 86400000 + 1))
      (by simp) (by decide) (by decide) (by decide) (by decide) (by norm_num)
      (by norm_num [abs_lt])]
    norm_num

/-- Witness of C7, amended: the whole-number threshold 30 on the page of the
returning user, read 30 days and 1 ms after the stored grant. -/
theorem isConsentRecent_exact_days_witness :
    (isConsentRecent isoParse (some (.finite ((30 : ℤ) : ℚ))) lateCheck).1 = true ↔
      ((lateCheck.time + lateCheck.ticks.headD 0 : Nat) : Int) - 1700000000000 ≤
        30 * 86400000 :=
  (isConsentRecent_exact_days isoParse (some (.finite ((30 : ℤ) : ℚ))) lateCheck).2.1 30
    "2023-11-14T22:13:20.000Z" 1700000000000 rfl (by decide) (by decide) (by decide)
    (by norm_num [abs_lt]) (by decide)

/-- C7, as stated, fails: with the grant of 2023-11-14T22:13:20.000Z stored and
the clock 30 days and 1 ms later, the elapsed time in whole days of
86,400,000 ms is 30, which is at most the threshold 30, yet
`isConsentRecent(30)` returns false. -/
theorem isConsentRecent_whole_days_counterexample :
    getItem lateCheck.storage "consent-date" = some "2023-11-14T22:13:20.000Z" ∧
    isoParse "2023-11-14T22:13:20.000Z" = some 1700000000000 ∧
    (newDate lateCheck).1 = 1700000000000 + 30 * 86400000 + 1 ∧
    wholeDays (((newDate lateCheck).1 : Int) - 1700000000000) = 30 ∧
    wholeDays (((newDate lateCheck).1 : Int) - 1700000000000) ≤ 30 ∧
    (isConsentRecent isoParse (some (.finite 30)) lateCheck).1 = false := by
  refine ⟨by decide, by decide, by decide, by decide, by decide, ?_⟩
  rw [Bool.eq_false_iff, Ne,
    isConsentRecent_int_threshold isoParse (some (.finite 30)) lateCheck 30
    "2023-11-14T22:13:20.000Z" 1700000000000 (1700000000000 + 30 * 86400000 + 1)
    (by simp) (by decide) (by decide) (by decide) (by decide) (by norm_num)
    (by norm_num [abs_lt])]
  norm_num

end AdvantageAI
